import Mathlib

/-!
Shallow embedding of `src/attached_assets/zenrows_pdf_downloader_1765313735679.py`.

The program performs one blocking HTTP GET through the ZenRows API, sniffs the
first four bytes of the response body for the PDF magic number, writes the body
to the output path on success, and exits 0 on success and 1 on any failure.

The embedding makes every effect explicit:
- the upstream network call's outcome is an oracle value (`NetOutcome`);
- the filesystem's behavior during the single write is an oracle value
  (`FsBehavior`), so that I/O faults (open failure, interrupted write) are
  expressible states of the environment;
- the content of the output file before the run is `fs0 : Option Bytes`
  (`none` meaning the file does not exist), and the result records its content
  after the run, so re-reading the file is reading the `file` field;
- network calls, file writes and console lines are recorded as traces.
-/

namespace Zenrows

/-- A byte sequence, each entry one byte value. -/
abbrev Bytes := List Nat

/-- Outcome of the single `requests.get` call, as seen by the program:
a response (with raw `content` bytes and decoded `text`), a
`requests.exceptions.Timeout`, or any other exception with its message. -/
inductive NetOutcome where
  | ok (content : Bytes) (text : String)
  | timeout
  | otherError (msg : String)
deriving Repr, DecidableEq

/-- Behavior of the filesystem if and when the program opens the output path
for binary writing. `ok`: open and write succeed. `openError`: `open` raises
(e.g. unwritable path); the file is untouched. `writeError flushed msg`:
`open` succeeds (truncating the file), then the write raises after `flushed`
bytes reached the file. -/
inductive FsBehavior where
  | ok
  | openError (msg : String)
  | writeError (flushed : Nat) (msg : String)
deriving Repr, DecidableEq

/-- The environment of one invocation: what the network does and what the
filesystem does. -/
structure Env where
  net : NetOutcome
  fsb : FsBehavior
deriving Repr

/-- One outbound HTTP GET request as built by the program. -/
structure NetCall where
  endpoint : String
  params : List (String × String)
  timeout : Nat
deriving Repr, DecidableEq

/-- Result of `download_pdf`: the returned boolean, the output file's content
after the call (`none` = no file), and the traces of printed lines, network
calls, and file writes (path paired with the bytes that reached the file). -/
structure DownloadResult where
  ok : Bool
  file : Option Bytes
  printed : List String
  calls : List NetCall
  writes : List (String × Bytes)
deriving Repr

/-- Result of `main`: the process exit code plus the same traces. -/
structure MainResult where
  exitCode : Nat
  file : Option Bytes
  printed : List String
  calls : List NetCall
  writes : List (String × Bytes)
deriving Repr

/-- `response.content.startswith(b'%PDF')`: the four magic bytes are
0x25 0x50 0x44 0x46. -/
def startsWithPDF : Bytes → Bool
  | b0 :: b1 :: b2 :: b3 :: _ =>
      b0 == 0x25 && b1 == 0x50 && b2 == 0x44 && b3 == 0x46
  | _ => false

/-- Helper for Python's thousands-separator format: insert a comma after
every three characters of a reversed digit list. -/
def insertCommasRev : List Char → List Char
  | a :: b :: c :: d :: rest => a :: b :: c :: ',' :: insertCommasRev (d :: rest)
  | l => l

/-- Python's `f"{n:,}"` for a natural number: decimal digits grouped in
threes by commas. -/
def formatComma (n : Nat) : String :=
  String.mk (insertCommasRev (Nat.repr n).toList.reverse).reverse

/-- The fixed upstream endpoint. -/
def ZENROWS_ENDPOINT : String := "https://api.zenrows.com/v1/"

/-- The `params` dict of the request: target URL, credential, and the
premium-proxy flag. -/
def requestParams (url api_key : String) : List (String × String) :=
  [("url", url), ("apikey", api_key), ("premium_proxy", "true")]

/-- Embedding of `download_pdf(url, output_path, api_key)`.

The two progress lines are printed, then the single GET with the three
query parameters and `timeout=60` is issued. On a response whose body starts
with `%PDF`, the body is written to `output_path` and the success lines are
printed; otherwise the not-a-PDF diagnostic with the first 200 characters of
`response.text` is printed. A `Timeout` prints the timeout message; any other
exception (from the call or from the file write, both inside the `try`)
prints its description. The function returns `True` exactly on the success
branch with a completed write. -/
def download_pdf (url output_path api_key : String) (env : Env)
    (fs0 : Option Bytes) : DownloadResult :=
  let header : List String :=
    ["Downloading from: " ++ url, "Using ZenRows API..."]
  let call : NetCall :=
    { endpoint := ZENROWS_ENDPOINT
      params := requestParams url api_key
      timeout := 60 }
  match env.net with
  | NetOutcome.ok content text =>
      if startsWithPDF content then
        match env.fsb with
        | FsBehavior.ok =>
            { ok := true
              file := some content
              printed := header ++
                ["✅ Success: Downloaded " ++ formatComma content.length ++
                   " bytes",
                 "Saved to: " ++ output_path]
              calls := [call]
              writes := [(output_path, content)] }
        | FsBehavior.openError msg =>
            { ok := false
              file := fs0
              printed := header ++ ["❌ Error: " ++ msg]
              calls := [call]
              writes := [] }
        | FsBehavior.writeError flushed msg =>
            { ok := false
              file := some (content.take flushed)
              printed := header ++ ["❌ Error: " ++ msg]
              calls := [call]
              writes := [(output_path, content.take flushed)] }
      else
        { ok := false
          file := fs0
          printed := header ++
            ["❌ Error: Response is not a PDF",
             "Response: " ++ text.take 200]
          calls := [call]
          writes := [] }
  | NetOutcome.timeout =>
      { ok := false
        file := fs0
        printed := header ++ ["❌ Error: Request timeout"]
        calls := [call]
        writes := [] }
  | NetOutcome.otherError msg =>
      { ok := false
        file := fs0
        printed := header ++ ["❌ Error: " ++ msg]
        calls := [call]
        writes := [] }

/-- The three usage lines printed when the argument count is wrong (the
second print outputs a leading blank line). -/
def usageLines : List String :=
  ["Usage: python3 zenrows_pdf_downloader.py <URL> <OUTPUT_FILE> <API_KEY>",
   "\nExample:",
   "  python3 zenrows_pdf_downloader.py \"https://example.com/file.pdf\" output.pdf YOUR_API_KEY"]

/-- Embedding of `main()`. `argv` is the full `sys.argv`, program name
included, so three positional arguments means `argv.length = 4`. On any
other length the usage text is printed and the process exits 1 with no
network call and no file write; otherwise `download_pdf` runs on
`argv[1] argv[2] argv[3]` and the process exits 0 if it returned `True`,
else 1. -/
def main (argv : List String) (env : Env) (fs0 : Option Bytes) : MainResult :=
  if argv.length ≠ 4 then
    { exitCode := 1
      file := fs0
      printed := usageLines
      calls := []
      writes := [] }
  else
    let url := argv.getD 1 ""
    let output_path := argv.getD 2 ""
    let api_key := argv.getD 3 ""
    let r := download_pdf url output_path api_key env fs0
    { exitCode := if r.ok then 0 else 1
      file := r.file
      printed := r.printed
      calls := r.calls
      writes := r.writes }

/-- C1: If the upstream call returns a body beginning with the four bytes
`%PDF` and the filesystem performs the write normally, the entire body is at
the output path byte-for-byte afterwards (re-reading the file yields exactly
`content`), the Success line reports the byte count written, and the process
exits with code 0. -/
theorem c1_success_roundtrip (argv0 url output_path api_key text : String)
    (content : Bytes) (fs0 : Option Bytes)
    (hpdf : startsWithPDF content = true) :
    (Zenrows.main [argv0, url, output_path, api_key]
        ⟨NetOutcome.ok content text, FsBehavior.ok⟩ fs0).file = some content ∧
    ("✅ Success: Downloaded " ++ formatComma content.length ++ " bytes") ∈
      (Zenrows.main [argv0, url, output_path, api_key]
        ⟨NetOutcome.ok content text, FsBehavior.ok⟩ fs0).printed ∧
    (Zenrows.main [argv0, url, output_path, api_key]
        ⟨NetOutcome.ok content text, FsBehavior.ok⟩ fs0).exitCode = 0 := by
  simp [Zenrows.main, download_pdf, hpdf]

/-- Witness for C1 at a concrete input: a 6-byte body `%PDF-1`. -/
theorem c1_success_roundtrip_witness :
    (Zenrows.main ["prog", "https://example.com/file.pdf", "output.pdf", "KEY"]
        ⟨NetOutcome.ok [0x25, 0x50, 0x44, 0x46, 0x2D, 0x31] "%PDF-1",
         FsBehavior.ok⟩ none).file =
      some [0x25, 0x50, 0x44, 0x46, 0x2D, 0x31] ∧
    ("✅ Success: Downloaded " ++
        formatComma ([0x25, 0x50, 0x44, 0x46, 0x2D, 0x31] : Bytes).length ++
        " bytes") ∈
      (Zenrows.main ["prog", "https://example.com/file.pdf", "output.pdf", "KEY"]
        ⟨NetOutcome.ok [0x25, 0x50, 0x44, 0x46, 0x2D, 0x31] "%PDF-1",
         FsBehavior.ok⟩ none).printed ∧
    (Zenrows.main ["prog", "https://example.com/file.pdf", "output.pdf", "KEY"]
        ⟨NetOutcome.ok [0x25, 0x50, 0x44, 0x46, 0x2D, 0x31] "%PDF-1",
         FsBehavior.ok⟩ none).exitCode = 0 :=
  c1_success_roundtrip "prog" "https://example.com/file.pdf" "output.pdf" "KEY"
    "%PDF-1" [0x25, 0x50, 0x44, 0x46, 0x2D, 0x31] none rfl

/-- C2: With any argument count other than three positional arguments
(`sys.argv` length other than 4), the program prints the usage text, which
includes the example line, exits with code 1, makes no network call and
performs no file write, and the output file is untouched. -/
theorem c2_usage (argv : List String) (env : Env) (fs0 : Option Bytes)
    (h : argv.length ≠ 4) :
    (Zenrows.main argv env fs0).exitCode = 1 ∧
    (Zenrows.main argv env fs0).printed = usageLines ∧
    ("  python3 zenrows_pdf_downloader.py \"https://example.com/file.pdf\" output.pdf YOUR_API_KEY") ∈
      (Zenrows.main argv env fs0).printed ∧
    (Zenrows.main argv env fs0).calls = [] ∧
    (Zenrows.main argv env fs0).writes = [] ∧
    (Zenrows.main argv env fs0).file = fs0 := by
  simp [Zenrows.main, h, usageLines]

/-- Witness for C2 at a concrete input: an empty argument vector. -/
theorem c2_usage_witness :
    (Zenrows.main [] ⟨NetOutcome.timeout, FsBehavior.ok⟩ none).exitCode = 1 ∧
    (Zenrows.main [] ⟨NetOutcome.timeout, FsBehavior.ok⟩ none).printed = usageLines ∧
    ("  python3 zenrows_pdf_downloader.py \"https://example.com/file.pdf\" output.pdf YOUR_API_KEY") ∈
      (Zenrows.main [] ⟨NetOutcome.timeout, FsBehavior.ok⟩ none).printed ∧
    (Zenrows.main [] ⟨NetOutcome.timeout, FsBehavior.ok⟩ none).calls = [] ∧
    (Zenrows.main [] ⟨NetOutcome.timeout, FsBehavior.ok⟩ none).writes = [] ∧
    (Zenrows.main [] ⟨NetOutcome.timeout, FsBehavior.ok⟩ none).file = none :=
  c2_usage [] ⟨NetOutcome.timeout, FsBehavior.ok⟩ none (by decide)

/-- C3: If the upstream call returns a body not beginning with `%PDF`, no
file is created or modified at the output path, the diagnostic includes the
first 200 characters of `response.text`, no write happens, and the process
exits with code 1. -/
theorem c3_not_pdf (argv0 url output_path api_key text : String)
    (content : Bytes) (fs0 : Option Bytes)
    (h : startsWithPDF content = false) :
    (Zenrows.main [argv0, url, output_path, api_key]
        ⟨NetOutcome.ok content text, FsBehavior.ok⟩ fs0).file = fs0 ∧
    (Zenrows.main [argv0, url, output_path, api_key]
        ⟨NetOutcome.ok content text, FsBehavior.ok⟩ fs0).writes = [] ∧
    ("Response: " ++ text.take 200) ∈
      (Zenrows.main [argv0, url, output_path, api_key]
        ⟨NetOutcome.ok content text, FsBehavior.ok⟩ fs0).printed ∧
    (Zenrows.main [argv0, url, output_path, api_key]
        ⟨NetOutcome.ok content text, FsBehavior.ok⟩ fs0).exitCode = 1 := by
  simp [Zenrows.main, download_pdf, h]

/-- Witness for C3 at a concrete input: an HTML error page body. -/
theorem c3_not_pdf_witness :
    (Zenrows.main ["prog", "u", "output.pdf", "KEY"]
        ⟨NetOutcome.ok [0x3C, 0x68, 0x74, 0x6D, 0x6C, 0x3E] "<html>blocked</html>",
         FsBehavior.ok⟩ none).file = none ∧
    (Zenrows.main ["prog", "u", "output.pdf", "KEY"]
        ⟨NetOutcome.ok [0x3C, 0x68, 0x74, 0x6D, 0x6C, 0x3E] "<html>blocked</html>",
         FsBehavior.ok⟩ none).writes = [] ∧
    ("Response: " ++ String.take "<html>blocked</html>" 200) ∈
      (Zenrows.main ["prog", "u", "output.pdf", "KEY"]
        ⟨NetOutcome.ok [0x3C, 0x68, 0x74, 0x6D, 0x6C, 0x3E] "<html>blocked</html>",
         FsBehavior.ok⟩ none).printed ∧
    (Zenrows.main ["prog", "u", "output.pdf", "KEY"]
        ⟨NetOutcome.ok [0x3C, 0x68, 0x74, 0x6D, 0x6C, 0x3E] "<html>blocked</html>",
         FsBehavior.ok⟩ none).exitCode = 1 :=
  c3_not_pdf "prog" "u" "output.pdf" "KEY" "<html>blocked</html>"
    [0x3C, 0x68, 0x74, 0x6D, 0x6C, 0x3E] none rfl

/-- C4: If the upstream call times out, `download_pdf` reports Failure with
the timeout-specific message, no file is written, the output path is
untouched, and the process exits with code 1. -/
theorem c4_timeout (argv0 url output_path api_key : String)
    (fsb : FsBehavior) (fs0 : Option Bytes) :
    (Zenrows.main [argv0, url, output_path, api_key]
        ⟨NetOutcome.timeout, fsb⟩ fs0).file = fs0 ∧
    (Zenrows.main [argv0, url, output_path, api_key]
        ⟨NetOutcome.timeout, fsb⟩ fs0).writes = [] ∧
    "❌ Error: Request timeout" ∈
      (Zenrows.main [argv0, url, output_path, api_key]
        ⟨NetOutcome.timeout, fsb⟩ fs0).printed ∧
    (Zenrows.main [argv0, url, output_path, api_key]
        ⟨NetOutcome.timeout, fsb⟩ fs0).exitCode = 1 := by
  simp [Zenrows.main, download_pdf]

/-- C5: every exception during the network call or the file write other than
a timeout is caught at the `download_pdf` boundary and turned into a Failure
that prints the error's description; the process always exits via an explicit
code, 0 exactly when `download_pdf` reported Success and 1 on any Failure. -/
theorem c5_single_recovery_boundary (argv0 url output_path api_key : String)
    (env : Env) (fs0 : Option Bytes) :
    ((Zenrows.main [argv0, url, output_path, api_key] env fs0).exitCode = 0 ∨
       (Zenrows.main [argv0, url, output_path, api_key] env fs0).exitCode = 1) ∧
    ((Zenrows.main [argv0, url, output_path, api_key] env fs0).exitCode = 0 ↔
       (download_pdf url output_path api_key env fs0).ok = true) ∧
    (∀ msg, env.net = NetOutcome.otherError msg →
       (download_pdf url output_path api_key env fs0).ok = false ∧
       ("❌ Error: " ++ msg) ∈
         (download_pdf url output_path api_key env fs0).printed) ∧
    (∀ c t msg, env.net = NetOutcome.ok c t → startsWithPDF c = true →
       env.fsb = FsBehavior.openError msg →
       (download_pdf url output_path api_key env fs0).ok = false ∧
       ("❌ Error: " ++ msg) ∈
         (download_pdf url output_path api_key env fs0).printed) ∧
    (∀ c t k msg, env.net = NetOutcome.ok c t → startsWithPDF c = true →
       env.fsb = FsBehavior.writeError k msg →
       (download_pdf url output_path api_key env fs0).ok = false ∧
       ("❌ Error: " ++ msg) ∈
         (download_pdf url output_path api_key env fs0).printed) := by
  rcases env with ⟨net, fsb⟩
  cases net with
  | ok content text =>
      cases hb : startsWithPDF content <;> cases fsb <;>
        simp [Zenrows.main, download_pdf, hb] <;>
        (intros; subst_vars; simp_all)
  | timeout => cases fsb <;> simp [Zenrows.main, download_pdf]
  | otherError m => cases fsb <;> simp [Zenrows.main, download_pdf]

/-- Witness for C5 at a concrete input: a transport error with message
`boom` is caught and reported as a Failure with that description. -/
theorem c5_single_recovery_boundary_witness :
    (download_pdf "u" "o" "k"
        ⟨NetOutcome.otherError "boom", FsBehavior.ok⟩ none).ok = false ∧
    ("❌ Error: " ++ "boom") ∈
      (download_pdf "u" "o" "k"
        ⟨NetOutcome.otherError "boom", FsBehavior.ok⟩ none).printed :=
  (c5_single_recovery_boundary "p" "u" "o" "k"
    ⟨NetOutcome.otherError "boom", FsBehavior.ok⟩ none).2.2.1 "boom" rfl

/-- C6 counterexample: the claim that no terminal state leaves a truncated
or partial file is false. With a pre-existing 4-byte file at the output path,
a 6-byte `%PDF` body, and a write that is interrupted after 2 bytes, the
process exits 1 and the output path holds a 2-byte truncation of the body:
neither the original file content, nor the full body, nor absence of the
file. -/
theorem c6_counterexample :
    (Zenrows.main ["p", "u", "o", "k"]
        ⟨NetOutcome.ok [0x25, 0x50, 0x44, 0x46, 0x2D, 0x31] "t",
         FsBehavior.writeError 2 "No space left on device"⟩
        (some [0x25, 0x50, 0x44, 0x46])).exitCode = 1 ∧
    (Zenrows.main ["p", "u", "o", "k"]
        ⟨NetOutcome.ok [0x25, 0x50, 0x44, 0x46, 0x2D, 0x31] "t",
         FsBehavior.writeError 2 "No space left on device"⟩
        (some [0x25, 0x50, 0x44, 0x46])).file = some [0x25, 0x50] ∧
    (Zenrows.main ["p", "u", "o", "k"]
        ⟨NetOutcome.ok [0x25, 0x50, 0x44, 0x46, 0x2D, 0x31] "t",
         FsBehavior.writeError 2 "No space left on device"⟩
        (some [0x25, 0x50, 0x44, 0x46])).file ≠
      some [0x25, 0x50, 0x44, 0x46, 0x2D, 0x31] ∧
    (Zenrows.main ["p", "u", "o", "k"]
        ⟨NetOutcome.ok [0x25, 0x50, 0x44, 0x46, 0x2D, 0x31] "t",
         FsBehavior.writeError 2 "No space left on device"⟩
        (some [0x25, 0x50, 0x44, 0x46])).file ≠ some [0x25, 0x50, 0x44, 0x46] ∧
    (Zenrows.main ["p", "u", "o", "k"]
        ⟨NetOutcome.ok [0x25, 0x50, 0x44, 0x46, 0x2D, 0x31] "t",
         FsBehavior.writeError 2 "No space left on device"⟩
        (some [0x25, 0x50, 0x44, 0x46])).file ≠ none := by
  decide

/-- C6 amended: on Success the output file holds the full response body; any
run that performs no write leaves the output path untouched; but if the write
itself is interrupted after `k` bytes, the output path is left holding the
`k`-byte truncated prefix of the body (the open in `wb` mode has already
truncated the file, so a partial file can remain). -/
theorem c6_amended_write_atomicity (url output_path api_key : String)
    (env : Env) (fs0 : Option Bytes) :
    ((download_pdf url output_path api_key env fs0).ok = true →
       ∃ c t, env.net = NetOutcome.ok c t ∧
         (download_pdf url output_path api_key env fs0).file = some c) ∧
    ((download_pdf url output_path api_key env fs0).writes = [] →
       (download_pdf url output_path api_key env fs0).file = fs0) ∧
    (∀ c t k msg, env.net = NetOutcome.ok c t → startsWithPDF c = true →
       env.fsb = FsBehavior.writeError k msg →
       (download_pdf url output_path api_key env fs0).file =
         some (c.take k)) := by
  rcases env with ⟨net, fsb⟩
  cases net with
  | ok content text =>
      cases hb : startsWithPDF content <;> cases fsb <;>
        simp [download_pdf, hb] <;>
        (intros; subst_vars; simp_all)
  | timeout => cases fsb <;> simp [download_pdf]
  | otherError m => cases fsb <;> simp [download_pdf]

/-- Witness for the amended C6 at a concrete input: a write interrupted
after 2 bytes of a 4-byte body leaves exactly the 2-byte prefix. -/
theorem c6_amended_write_atomicity_witness :
    (download_pdf "u" "o" "k"
        ⟨NetOutcome.ok [0x25, 0x50, 0x44, 0x46] "t",
         FsBehavior.writeError 2 "disk full"⟩ none).file =
      some (([0x25, 0x50, 0x44, 0x46] : Bytes).take 2) :=
  (c6_amended_write_atomicity "u" "o" "k"
      ⟨NetOutcome.ok [0x25, 0x50, 0x44, 0x46] "t",
       FsBehavior.writeError 2 "disk full"⟩ none).2.2
    [0x25, 0x50, 0x44, 0x46] "t" 2 "disk full" rfl rfl rfl

/-- C7: running the same successful invocation twice is idempotent on the
output file: both runs exit 0, the first leaves the full body at the output
path, and the second run (starting from the file state the first one left)
leaves the identical bytes. -/
theorem c7_idempotent (argv0 url output_path api_key text : String)
    (content : Bytes) (fs0 : Option Bytes)
    (hpdf : startsWithPDF content = true) :
    (Zenrows.main [argv0, url, output_path, api_key]
        ⟨NetOutcome.ok content text, FsBehavior.ok⟩ fs0).exitCode = 0 ∧
    (Zenrows.main [argv0, url, output_path, api_key]
        ⟨NetOutcome.ok content text, FsBehavior.ok⟩ fs0).file = some content ∧
    (Zenrows.main [argv0, url, output_path, api_key]
        ⟨NetOutcome.ok content text, FsBehavior.ok⟩
        (Zenrows.main [argv0, url, output_path, api_key]
          ⟨NetOutcome.ok content text, FsBehavior.ok⟩ fs0).file).exitCode = 0 ∧
    (Zenrows.main [argv0, url, output_path, api_key]
        ⟨NetOutcome.ok content text, FsBehavior.ok⟩
        (Zenrows.main [argv0, url, output_path, api_key]
          ⟨NetOutcome.ok content text, FsBehavior.ok⟩ fs0).file).file =
      (Zenrows.main [argv0, url, output_path, api_key]
        ⟨NetOutcome.ok content text, FsBehavior.ok⟩ fs0).file := by
  simp [Zenrows.main, download_pdf, hpdf]

/-- Witness for C7 at a concrete input: the 4-byte body `%PDF`. -/
theorem c7_idempotent_witness :
    (Zenrows.main ["p", "u", "o", "k"]
        ⟨NetOutcome.ok [0x25, 0x50, 0x44, 0x46] "t", FsBehavior.ok⟩
        none).exitCode = 0 ∧
    (Zenrows.main ["p", "u", "o", "k"]
        ⟨NetOutcome.ok [0x25, 0x50, 0x44, 0x46] "t", FsBehavior.ok⟩
        none).file = some [0x25, 0x50, 0x44, 0x46] ∧
    (Zenrows.main ["p", "u", "o", "k"]
        ⟨NetOutcome.ok [0x25, 0x50, 0x44, 0x46] "t", FsBehavior.ok⟩
        (Zenrows.main ["p", "u", "o", "k"]
          ⟨NetOutcome.ok [0x25, 0x50, 0x44, 0x46] "t", FsBehavior.ok⟩
          none).file).exitCode = 0 ∧
    (Zenrows.main ["p", "u", "o", "k"]
        ⟨NetOutcome.ok [0x25, 0x50, 0x44, 0x46] "t", FsBehavior.ok⟩
        (Zenrows.main ["p", "u", "o", "k"]
          ⟨NetOutcome.ok [0x25, 0x50, 0x44, 0x46] "t", FsBehavior.ok⟩
          none).file).file =
      (Zenrows.main ["p", "u", "o", "k"]
        ⟨NetOutcome.ok [0x25, 0x50, 0x44, 0x46] "t", FsBehavior.ok⟩
        none).file :=
  c7_idempotent "p" "u" "o" "k" "t" [0x25, 0x50, 0x44, 0x46] none rfl

/-- C8: on every invocation of `download_pdf`, regardless of the outcome,
exactly one GET is built, to the fixed ZenRows endpoint, carrying exactly
the three query parameters (target URL, credential, premium-proxy flag) and
a request timeout of 60. -/
theorem c8_request_shape (url output_path api_key : String)
    (env : Env) (fs0 : Option Bytes) :
    (download_pdf url output_path api_key env fs0).calls =
      [{ endpoint := "https://api.zenrows.com/v1/"
         params := [("url", url), ("apikey", api_key), ("premium_proxy", "true")]
         timeout := 60 }] := by
  rcases env with ⟨net, fsb⟩
  cases net with
  | ok content text =>
      cases hb : startsWithPDF content <;> cases fsb <;>
        simp [download_pdf, hb, ZENROWS_ENDPOINT, requestParams]
  | timeout => cases fsb <;> simp [download_pdf, ZENROWS_ENDPOINT, requestParams]
  | otherError m =>
      cases fsb <;> simp [download_pdf, ZENROWS_ENDPOINT, requestParams]

/-- C9: for every invocation that passes the argument check, exactly one
outbound network call happens; at most one file write happens, and a write
happens only on the branch where the response body passed the `%PDF` sniff;
the non-PDF, timeout, and other-error branches perform no write. -/
theorem c9_effects (argv0 url output_path api_key : String)
    (env : Env) (fs0 : Option Bytes) :
    (Zenrows.main [argv0, url, output_path, api_key] env fs0).calls.length = 1 ∧
    (Zenrows.main [argv0, url, output_path, api_key] env fs0).writes.length ≤ 1 ∧
    ((Zenrows.main [argv0, url, output_path, api_key] env fs0).writes ≠ [] →
       ∃ c t, env.net = NetOutcome.ok c t ∧ startsWithPDF c = true) ∧
    (∀ c t, env.net = NetOutcome.ok c t → startsWithPDF c = false →
       (Zenrows.main [argv0, url, output_path, api_key] env fs0).writes = []) ∧
    (env.net = NetOutcome.timeout →
       (Zenrows.main [argv0, url, output_path, api_key] env fs0).writes = []) ∧
    (∀ msg, env.net = NetOutcome.otherError msg →
       (Zenrows.main [argv0, url, output_path, api_key] env fs0).writes = []) := by
  rcases env with ⟨net, fsb⟩
  cases net with
  | ok content text =>
      cases hb : startsWithPDF content <;> cases fsb <;>
        simp [Zenrows.main, download_pdf, hb]
  | timeout => cases fsb <;> simp [Zenrows.main, download_pdf]
  | otherError m => cases fsb <;> simp [Zenrows.main, download_pdf]

/-- Witness for C9 at concrete inputs: one network call on a successful run,
and no write when the body fails the sniff. -/
theorem c9_effects_witness :
    (Zenrows.main ["p", "u", "o", "k"]
        ⟨NetOutcome.ok [0x25, 0x50, 0x44, 0x46] "t", FsBehavior.ok⟩
        none).calls.length = 1 ∧
    (Zenrows.main ["p", "u", "o", "k"]
        ⟨NetOutcome.ok [0x07] "t", FsBehavior.ok⟩ none).writes = [] :=
  ⟨(c9_effects "p" "u" "o" "k"
      ⟨NetOutcome.ok [0x25, 0x50, 0x44, 0x46] "t", FsBehavior.ok⟩ none).1,
   (c9_effects "p" "u" "o" "k"
      ⟨NetOutcome.ok [0x07] "t", FsBehavior.ok⟩ none).2.2.2.1 [0x07] "t" rfl rfl⟩

/-- C10: a response body shorter than 4 bytes (the empty body included)
fails the magic-number sniff, so the run takes the ordinary non-PDF error
path: Failure, no write, untouched output path, exit code 1. -/
theorem c10_short_body (argv0 url output_path api_key text : String)
    (content : Bytes) (fsb : FsBehavior) (fs0 : Option Bytes)
    (h : content.length < 4) :
    startsWithPDF content = false ∧
    (Zenrows.main [argv0, url, output_path, api_key]
        ⟨NetOutcome.ok content text, fsb⟩ fs0).exitCode = 1 ∧
    (Zenrows.main [argv0, url, output_path, api_key]
        ⟨NetOutcome.ok content text, fsb⟩ fs0).file = fs0 ∧
    (Zenrows.main [argv0, url, output_path, api_key]
        ⟨NetOutcome.ok content text, fsb⟩ fs0).writes = [] := by
  have hs : startsWithPDF content = false := by
    rcases content with _ | ⟨a, _ | ⟨b, _ | ⟨c, _ | ⟨d, t⟩⟩⟩⟩
    · rfl
    · rfl
    · rfl
    · rfl
    · simp only [List.length_cons] at h
      omega
  exact ⟨hs, by simp [Zenrows.main, download_pdf, hs]⟩

/-- Witness for C10 at a concrete input: the empty response body. -/
theorem c10_short_body_witness :
    startsWithPDF [] = false ∧
    (Zenrows.main ["p", "u", "o", "k"]
        ⟨NetOutcome.ok [] "t", FsBehavior.ok⟩ none).exitCode = 1 ∧
    (Zenrows.main ["p", "u", "o", "k"]
        ⟨NetOutcome.ok [] "t", FsBehavior.ok⟩ none).file = none ∧
    (Zenrows.main ["p", "u", "o", "k"]
        ⟨NetOutcome.ok [] "t", FsBehavior.ok⟩ none).writes = [] :=
  c10_short_body "p" "u" "o" "k" "t" [] FsBehavior.ok none (by decide)

end Zenrows
